import Mathlib

/-!
Verification of the ARD Audiothek extractor
(`youtube_dl/extractor/ardaudiothek.py`).

The extractor is embedded shallowly: JSON responses become the inductive
`JValue`, the host framework's `try_get` helper and `unified_strdate`
(which live outside the extractor module) are modelled from the spec, and
the network fetch is abstracted by parametrizing every route function over
the already-downloaded response value.
-/

/-- A JSON-like value as produced by parsing the upstream API response. -/
inductive JValue where
  | null
  | bool (b : Bool)
  | num (n : Int)
  | str (s : String)
  | arr (items : List JValue)
  | obj (fields : List (String × JValue))

/-- First-match lookup of a key in an association list of object fields. -/
def lookupField : List (String × JValue) → String → Option JValue
  | [], _ => none
  | (k, v) :: rest, key => if k = key then some v else lookupField rest key

/-- Subscripting a value with a string key (`x['k']` in Python); any failure
mode that Python would raise and `try_get` would catch becomes `none`. -/
def JValue.get? : JValue → String → Option JValue
  | .obj fs, k => lookupField fs k
  | _, _ => none

/-- Subscripting a value with a numeric index (`x[0]` in Python). -/
def JValue.idx? : JValue → Nat → Option JValue
  | .arr xs, i => xs.get? i
  | _, _ => none

/-- Projection to a string, mirroring `isinstance(v, compat_str)`. -/
def JValue.asStr? : JValue → Option String
  | .str s => some s
  | _ => none

/-- Projection to an int, mirroring `isinstance(v, int)`; Python booleans
are instances of `int`, so they pass the check as 0 or 1. -/
def JValue.asInt? : JValue → Option Int
  | .num n => some n
  | .bool b => some (if b then 1 else 0)
  | _ => none

/-- Projection to a list, mirroring `isinstance(v, list)`. -/
def JValue.asArr? : JValue → Option (List JValue)
  | .arr xs => some xs
  | _ => none

/-- Projection to a dict, mirroring `isinstance(v, dict)`. -/
def JValue.asObj? : JValue → Option (List (String × JValue))
  | .obj fs => some fs
  | _ => none

/-- Modelled from the spec: the ordered-fallback accessor of section 9,
standing in for the host framework's `try_get` helper
(`youtube_dl/utils.py`, not included under src/): try each extraction path
in order; a failed traversal or a value of the wrong expected type falls
through to the next path; the first value of the right type is returned;
when no path yields one the result is null. -/
def tryGet (src : JValue) (getters : List (JValue → Option JValue))
    (proj : JValue → Option α) : Option α :=
  match getters with
  | [] => none
  | g :: gs =>
    match (g src).bind proj with
    | some v => some v
    | none => tryGet src gs proj

/-- The accessor with expected type `compat_str`. -/
def tryGetStr (src : JValue) (getters : List (JValue → Option JValue)) : Option String :=
  tryGet src getters JValue.asStr?

/-- The accessor with expected type `int`. -/
def tryGetInt (src : JValue) (getters : List (JValue → Option JValue)) : Option Int :=
  tryGet src getters JValue.asInt?

/-- The accessor with expected type `list`. -/
def tryGetList (src : JValue) (getters : List (JValue → Option JValue)) : Option (List JValue) :=
  tryGet src getters JValue.asArr?

/-- The accessor with expected type `dict`. -/
def tryGetDict (src : JValue) (getters : List (JValue → Option JValue)) : Option (List (String × JValue)) :=
  tryGet src getters JValue.asObj?

/-- One pass of Python `template.format(width=w)` restricted to the shapes
the extractor meets: doubled braces are literal braces, a field named
`width` is replaced by the decimal rendering of `w`, and any other field
(unknown name, positional, format spec) as well as a stray or unterminated
brace makes the whole substitution fail. The state argument is `none`
outside a replacement field and carries the field name read so far inside
one. -/
def substRun (w : List Char) : List Char → Option (List Char) → Option (List Char)
  | [], none => some []
  | [], some _ => none
  | '{' :: '{' :: rest, none => (substRun w rest none).map (fun r => '{' :: r)
  | '}' :: '}' :: rest, none => (substRun w rest none).map (fun r => '}' :: r)
  | '{' :: rest, none => substRun w rest (some [])
  | '}' :: _, none => none
  | c :: rest, none => (substRun w rest none).map (fun r => c :: r)
  | '}' :: rest, some acc =>
    if acc = "width".toList then (substRun w rest none).map (fun r => w ++ r)
    else none
  | c :: rest, some acc => substRun w rest (some (acc ++ [c]))

/-- The thumbnail template instantiation `template.format(width=width)`. -/
def formatWidth (template : String) (width : Nat) : Option String :=
  (substRun (toString width).toList template.toList none).map List.asString

/-- Modelled from the spec: `upload_date` is the publish timestamp parsed
into a calendar date, null when absent or unparseable (the real helper is
`unified_strdate` in `youtube_dl/utils.py`, which is not included under
src/). An ISO-like timestamp beginning `YYYY-MM-DD` yields the compact
date `YYYYMMDD`; anything else is unparseable. -/
def unified_strdate : Option String → Option String
  | none => none
  | some s =>
    match s.toList with
    | y1 :: y2 :: y3 :: y4 :: '-' :: m1 :: m2 :: '-' :: d1 :: d2 :: _ =>
      if [y1, y2, y3, y4, m1, m2, d1, d2].all Char.isDigit then
        some (List.asString [y1, y2, y3, y4, m1, m2, d1, d2])
      else none
    | _ => none

/-- Modelled from the spec: the error surface of one resolution call. The
`extractorError` constructor with its message models the host framework's
expected-failure exception (`ExtractorError` in `youtube_dl/utils.py`, not
included under src/); `keyError` models the uncaught Python
`KeyError`/`TypeError` escaping from the unguarded id subscript in the
warning path, which nothing in the extractor catches. -/
inductive PyError where
  | extractorError (msg : String)
  | keyError

/-- The canonical episode record assembled by the normalizer. Every field
except `url` is optional; `url` is present exactly because its absence is
fatal for the record. -/
structure EpisodeRecord where
  id : Option String
  title : Option String
  description : Option String
  url : String
  duration : Option Int
  upload_date : Option String
  is_live : Bool
  thumbnail : Option String
  channel : Option String
  series : Option String
  categories : Option String

/-- A non-fatal per-entry warning, keyed by the dropped node's id value as
passed to `report_warning`. -/
structure Warning where
  video_id : JValue

/-- The playlist-shaped result dictionary of the playlist routes. -/
structure PlaylistResult where
  id : Option String
  title : Option String
  _type : String
  entries : List EpisodeRecord

/-- The getter `lambda x: x['audios'][0]['url']`. -/
def getAudioUrl (x : JValue) : Option JValue :=
  ((x.get? "audios").bind (fun a => a.idx? 0)).bind (fun v => v.get? "url")

/-- The getter `lambda x: x['audios'][0]['downloadUrl']`. -/
def getAudioDownloadUrl (x : JValue) : Option JValue :=
  ((x.get? "audios").bind (fun a => a.idx? 0)).bind (fun v => v.get? "downloadUrl")

/-- The square-aspect image template path `x['image']['url1X1']`. -/
def imagePath (x : JValue) : Option JValue :=
  (x.get? "image").bind (fun i => i.get? "url1X1")

/-- The thumbnail getter: the square image URL template with the width
field substituted by 320. -/
def getThumbnail (x : JValue) : Option JValue :=
  (imagePath x).bind (fun v =>
    (v.asStr?).bind (fun t => (formatWidth t 320).map JValue.str))

/-- The channel getter reading the organization name behind the program
set's publication service. -/
def getChannel (x : JValue) : Option JValue :=
  ((x.get? "programSet").bind (fun p => p.get? "publicationService")).bind
    (fun s => s.get? "organizationName")

/-- The series getter reading the program set's title. -/
def getSeries (x : JValue) : Option JValue :=
  (x.get? "programSet").bind (fun p => p.get? "title")

/-- The genre getter behind the program set's publication service. -/
def getCategories (x : JValue) : Option JValue :=
  ((x.get? "programSet").bind (fun p => p.get? "publicationService")).bind
    (fun s => s.get? "genre")

/-- Python truthiness of an optional string: `not v` holds for `None` and
for the empty string. -/
def falsyStr : Option String → Bool
  | none => true
  | some s => s == ""

/-- Python truthiness of an optional list: `not v` holds for `None` and
for the empty list. -/
def falsyList : Option (List JValue) → Bool
  | none => true
  | some l => l.isEmpty

/-- Python truthiness of an optional dict: `not v` holds for `None` and
for the empty dict. -/
def falsyDict : Option (List (String × JValue)) → Bool
  | none => true
  | some fs => fs.isEmpty

/-- The episode normalizer `ARDAudiothekBaseIE._extract_episode`: one raw
episode node becomes one episode record, or the whole extraction fails
when no usable audio URL is found on the first audio variant. -/
def extract_episode (ep_data : JValue) : Except PyError EpisodeRecord :=
  let url? := tryGetStr ep_data [getAudioUrl, getAudioDownloadUrl]
  if falsyStr url? then
    .error (.extractorError "Could not find a URL to download")
  else
    .ok {
      id := tryGetStr ep_data [fun x => x.get? "id"]
      title := tryGetStr ep_data [fun x => x.get? "title"]
      description := tryGetStr ep_data [fun x => x.get? "description"]
      url := url?.getD ""
      duration := tryGetInt ep_data [fun x => x.get? "duration"]
      upload_date := unified_strdate (tryGetStr ep_data [fun x => x.get? "publishDate"])
      is_live := false
      thumbnail := tryGetStr ep_data [getThumbnail]
      channel := tryGetStr ep_data [getChannel]
      series := tryGetStr ep_data [getSeries]
      categories := tryGetStr ep_data [getCategories]
    }

/-- The entry loop of `_extract_sammlung_sendung`: each node is normalized
in upstream order; an `ExtractorError` is caught and replaced by a warning
keyed by the node's id, whose unguarded subscript itself fails with
`keyError` when the node has no id; any other error propagates. -/
def collect_entries : List JValue → Except PyError (List EpisodeRecord × List Warning)
  | [] => .ok ([], [])
  | entry :: rest =>
    match extract_episode entry with
    | .ok rec =>
      match collect_entries rest with
      | .error err => .error err
      | .ok (recs, warns) => .ok (rec :: recs, warns)
    | .error (.extractorError _) =>
      match entry.get? "id" with
      | none => .error .keyError
      | some v =>
        match collect_entries rest with
        | .error err => .error err
        | .ok (recs, warns) => .ok (recs, ⟨v⟩ :: warns)
    | .error .keyError => .error .keyError

/-- The node-list path `lambda x: x['data'][playlist_type]['items']['nodes']`. -/
def nodesPath (playlist_type : String) (x : JValue) : Option JValue :=
  (((x.get? "data").bind (fun d => d.get? playlist_type)).bind
    (fun p => p.get? "items")).bind (fun i => i.get? "nodes")

/-- The playlist id path `lambda x: x['data'][playlist_type]['id']`. -/
def idPath (playlist_type : String) (x : JValue) : Option JValue :=
  ((x.get? "data").bind (fun d => d.get? playlist_type)).bind
    (fun p => p.get? "id")

/-- The playlist title path `lambda x: x['data'][playlist_type]['title']`. -/
def titlePath (playlist_type : String) (x : JValue) : Option JValue :=
  ((x.get? "data").bind (fun d => d.get? playlist_type)).bind
    (fun p => p.get? "title")

/-- The single-episode item path `lambda x: x['data']['item']`. -/
def itemPath (x : JValue) : Option JValue :=
  (x.get? "data").bind (fun d => d.get? "item")

/-- The shared playlist assembler `ARDAudiothekBaseIE._extract_sammlung_sendung`,
parametrized over the already-downloaded GraphQL response. The playlist id
enters only the query text and the logging, never the computation. -/
def _extract_sammlung_sendung (_playlist_id : String) (playlist_type : String)
    (result_data : JValue) : Except PyError (PlaylistResult × List Warning) :=
  let entries? := tryGetList result_data [nodesPath playlist_type]
  if falsyList entries? then
    .error (.extractorError "Could not find any playlist data")
  else
    match collect_entries (entries?.getD []) with
    | .error err => .error err
    | .ok (recs, warns) =>
      .ok ({ id := tryGetStr result_data [idPath playlist_type]
             title := tryGetStr result_data [titlePath playlist_type]
             _type := "playlist"
             entries := recs }, warns)

/-- The entry loop of `ARDAudiothekSucheIE._real_extract`, a textual
duplicate of the loop inside the shared assembler. -/
def collect_entries_suche : List JValue → Except PyError (List EpisodeRecord × List Warning)
  | [] => .ok ([], [])
  | entry :: rest =>
    match extract_episode entry with
    | .ok rec =>
      match collect_entries_suche rest with
      | .error err => .error err
      | .ok (recs, warns) => .ok (rec :: recs, warns)
    | .error (.extractorError _) =>
      match entry.get? "id" with
      | none => .error .keyError
      | some v =>
        match collect_entries_suche rest with
        | .error err => .error err
        | .ok (recs, warns) => .ok (recs, ⟨v⟩ :: warns)
    | .error .keyError => .error .keyError

/-- The search route `ARDAudiothekSucheIE._real_extract`, parametrized over
the matched search string and the downloaded response. -/
def suche_real_extract (search_str : String) (result_data : JValue) :
    Except PyError (PlaylistResult × List Warning) :=
  let entries? := tryGetList result_data
    [fun x => (((x.get? "data").bind (fun d => d.get? "search")).bind
      (fun p => p.get? "items")).bind (fun i => i.get? "nodes")]
  if falsyList entries? then
    .error (.extractorError "Could not find any search results")
  else
    match collect_entries_suche (entries?.getD []) with
    | .error err => .error err
    | .ok (recs, warns) =>
      .ok ({ id := none
             title := some search_str
             _type := "playlist"
             entries := recs }, warns)

/-- The episode route `ARDAudiothekEpisodeIE._real_extract`, parametrized
over the matched episode id and the downloaded response. -/
def episode_real_extract (_episode_id : String) (result_data : JValue) :
    Except PyError EpisodeRecord :=
  let ep_data? := tryGetDict result_data [itemPath]
  if falsyDict ep_data? then
    .error (.extractorError "Could not find any episode data")
  else
    extract_episode (.obj (ep_data?.getD []))

/-- The record a node contributes to the playlist when it normalizes. -/
def survivor? (e : JValue) : Option EpisodeRecord := (extract_episode e).toOption

/-- The warning a node contributes when it fails normalization: keyed by
the node's id when one exists, nothing otherwise. -/
def droppedWarning? (e : JValue) : Option Warning :=
  match extract_episode e with
  | .ok _ => none
  | .error _ => (e.get? "id").map (fun v => ⟨v⟩)

theorem extract_episode_error_eq (e : JValue) (err : PyError)
    (h : extract_episode e = .error err) :
    err = .extractorError "Could not find a URL to download" := by
  cases hf : falsyStr (tryGetStr e [getAudioUrl, getAudioDownloadUrl]) with
  | true => simp [extract_episode, hf] at h; exact h.symm
  | false => simp [extract_episode, hf] at h

theorem collect_entries_ok_inv (ns : List JValue) :
    ∀ recs warns, collect_entries ns = .ok (recs, warns) →
      recs = ns.filterMap survivor? ∧ warns = ns.filterMap droppedWarning? ∧
      recs.length + warns.length = ns.length := by
  induction ns with
  | nil =>
    intro recs warns h
    simp [collect_entries] at h
    simp [h.1, h.2]
  | cons entry rest ih =>
    intro recs warns h
    cases hx : extract_episode entry with
    | ok rec =>
      cases hc : collect_entries rest with
      | error err => simp [collect_entries, hx, hc] at h
      | ok p =>
        obtain ⟨rs, ws⟩ := p
        simp [collect_entries, hx, hc] at h
        obtain ⟨hr, hw⟩ := h
        obtain ⟨e1, e2, e3⟩ := ih rs ws hc
        subst hr; subst hw; subst e1; subst e2
        simp [List.filterMap_cons, survivor?, droppedWarning?, hx, Except.toOption]
        omega
    | error err =>
      have herr := extract_episode_error_eq entry err hx
      subst herr
      cases hv : entry.get? "id" with
      | none => simp [collect_entries, hx, hv] at h
      | some v =>
        cases hc : collect_entries rest with
        | error err' => simp [collect_entries, hx, hv, hc] at h
        | ok p =>
          obtain ⟨rs, ws⟩ := p
          simp [collect_entries, hx, hv, hc] at h
          obtain ⟨hr, hw⟩ := h
          obtain ⟨e1, e2, e3⟩ := ih rs ws hc
          subst hr; subst hw; subst e1; subst e2
          simp [List.filterMap_cons, survivor?, droppedWarning?, hx, hv,
            Except.toOption]
          omega

theorem collect_entries_ok_of (ns : List JValue)
    (h : ∀ e ∈ ns, (∃ r, extract_episode e = .ok r) ∨
      ((∃ m, extract_episode e = .error (.extractorError m)) ∧
       ∃ v, e.get? "id" = some v)) :
    collect_entries ns =
      .ok (ns.filterMap survivor?, ns.filterMap droppedWarning?) := by
  induction ns with
  | nil => simp [collect_entries]
  | cons entry rest ih =>
    have htail := ih (fun e he => h e (List.mem_cons_of_mem _ he))
    rcases h entry (List.mem_cons_self _ _) with ⟨rec, hrec⟩ | ⟨⟨m, hm⟩, ⟨v, hv⟩⟩
    · simp [collect_entries, hrec, htail, List.filterMap_cons, survivor?,
        droppedWarning?, Except.toOption]
    · simp [collect_entries, hm, hv, htail, List.filterMap_cons, survivor?,
        droppedWarning?, Except.toOption]

theorem collect_entries_error_of_missing_id (ns : List JValue) (e : JValue)
    (he : e ∈ ns) (hm : ∃ m, extract_episode e = .error (.extractorError m))
    (hid : e.get? "id" = none) :
    collect_entries ns = .error .keyError := by
  induction ns with
  | nil => cases he
  | cons entry rest ih =>
    rcases List.mem_cons.mp he with rfl | hmem
    · obtain ⟨m, hm⟩ := hm
      simp [collect_entries, hm, hid]
    · cases hx : extract_episode entry with
      | ok rec => simp [collect_entries, hx, ih hmem]
      | error err =>
        have herr := extract_episode_error_eq entry err hx
        subst herr
        cases hv : entry.get? "id" with
        | none => simp [collect_entries, hx, hv]
        | some v => simp [collect_entries, hx, hv, ih hmem]

theorem collect_entries_suche_eq (ns : List JValue) :
    collect_entries_suche ns = collect_entries ns := by
  induction ns with
  | nil => rfl
  | cons entry rest ih =>
    simp only [collect_entries_suche, collect_entries, ih]

theorem dropped_length_eq_countP (ns : List JValue)
    (h : ∀ e ∈ ns, (∃ r, extract_episode e = .ok r) ∨
      ((∃ m, extract_episode e = .error (.extractorError m)) ∧
       ∃ v, e.get? "id" = some v)) :
    (ns.filterMap droppedWarning?).length =
      ns.countP (fun e => !(extract_episode e).isOk) := by
  induction ns with
  | nil => rfl
  | cons entry rest ih =>
    have htail := ih (fun e he => h e (List.mem_cons_of_mem _ he))
    rcases h entry (List.mem_cons_self _ _) with ⟨rec, hrec⟩ | ⟨⟨m, hm⟩, ⟨v, hv⟩⟩
    · simp [List.filterMap_cons, List.countP_cons, droppedWarning?, hrec,
        Except.isOk, Except.toBool, htail]
    · simp [List.filterMap_cons, List.countP_cons, droppedWarning?, hm, hv,
        Except.isOk, Except.toBool, htail]

theorem sammlung_ok (pid pt : String) (rd : JValue) (ns : List JValue)
    (recs : List EpisodeRecord) (warns : List Warning)
    (h1 : (nodesPath pt rd).bind JValue.asArr? = some ns) (h2 : ns ≠ [])
    (h3 : collect_entries ns = .ok (recs, warns)) :
    _extract_sammlung_sendung pid pt rd =
      .ok ({ id := tryGetStr rd [idPath pt], title := tryGetStr rd [titlePath pt],
             _type := "playlist", entries := recs }, warns) := by
  have he : tryGetList rd [nodesPath pt] = some ns := by
    simp [tryGetList, tryGet, h1]
  cases ns with
  | nil => exact absurd rfl h2
  | cons a l => simp [_extract_sammlung_sendung, he, falsyList, h3]

theorem sammlung_error (pid pt : String) (rd : JValue) (ns : List JValue)
    (err : PyError)
    (h1 : (nodesPath pt rd).bind JValue.asArr? = some ns) (h2 : ns ≠ [])
    (h3 : collect_entries ns = .error err) :
    _extract_sammlung_sendung pid pt rd = .error err := by
  have he : tryGetList rd [nodesPath pt] = some ns := by
    simp [tryGetList, tryGet, h1]
  cases ns with
  | nil => exact absurd rfl h2
  | cons a l => simp [_extract_sammlung_sendung, he, falsyList, h3]

theorem sammlung_ok_inv (pid pt : String) (rd : JValue) (pr : PlaylistResult)
    (warns : List Warning)
    (h : _extract_sammlung_sendung pid pt rd = .ok (pr, warns)) :
    ∃ ns, (nodesPath pt rd).bind JValue.asArr? = some ns ∧ ns ≠ [] ∧
      collect_entries ns = .ok (pr.entries, warns) := by
  cases hn : (nodesPath pt rd).bind JValue.asArr? with
  | none =>
    have he : tryGetList rd [nodesPath pt] = none := by
      simp [tryGetList, tryGet, hn]
    simp [_extract_sammlung_sendung, he, falsyList] at h
  | some ns =>
    have he : tryGetList rd [nodesPath pt] = some ns := by
      simp [tryGetList, tryGet, hn]
    cases ns with
    | nil => simp [_extract_sammlung_sendung, he, falsyList] at h
    | cons a l =>
      refine ⟨a :: l, rfl, by simp, ?_⟩
      cases hc : collect_entries (a :: l) with
      | error err => simp [_extract_sammlung_sendung, he, falsyList, hc] at h
      | ok p =>
        obtain ⟨rs, ws⟩ := p
        simp [_extract_sammlung_sendung, he, falsyList, hc] at h
        obtain ⟨hpr, hws⟩ := h
        subst hws
        rw [← hpr]

theorem suche_nodes_eq (rd : JValue) :
    tryGetList rd
      [fun x => (((x.get? "data").bind (fun d => d.get? "search")).bind
        (fun p => p.get? "items")).bind (fun i => i.get? "nodes")] =
    tryGetList rd [nodesPath "search"] := rfl

theorem suche_ok (s : String) (rd : JValue) (ns : List JValue)
    (recs : List EpisodeRecord) (warns : List Warning)
    (h1 : (nodesPath "search" rd).bind JValue.asArr? = some ns) (h2 : ns ≠ [])
    (h3 : collect_entries ns = .ok (recs, warns)) :
    suche_real_extract s rd =
      .ok ({ id := none, title := some s, _type := "playlist",
             entries := recs }, warns) := by
  have he : tryGetList rd [nodesPath "search"] = some ns := by
    simp [tryGetList, tryGet, h1]
  cases ns with
  | nil => exact absurd rfl h2
  | cons a l =>
    simp [suche_real_extract, suche_nodes_eq, he, falsyList,
      collect_entries_suche_eq, h3]

theorem suche_error (s : String) (rd : JValue) (ns : List JValue)
    (err : PyError)
    (h1 : (nodesPath "search" rd).bind JValue.asArr? = some ns) (h2 : ns ≠ [])
    (h3 : collect_entries ns = .error err) :
    suche_real_extract s rd = .error err := by
  have he : tryGetList rd [nodesPath "search"] = some ns := by
    simp [tryGetList, tryGet, h1]
  cases ns with
  | nil => exact absurd rfl h2
  | cons a l =>
    simp [suche_real_extract, suche_nodes_eq, he, falsyList,
      collect_entries_suche_eq, h3]

theorem suche_ok_inv (s : String) (rd : JValue) (pr : PlaylistResult)
    (warns : List Warning)
    (h : suche_real_extract s rd = .ok (pr, warns)) :
    ∃ ns, (nodesPath "search" rd).bind JValue.asArr? = some ns ∧ ns ≠ [] ∧
      collect_entries ns = .ok (pr.entries, warns) ∧ pr.id = none ∧
      pr.title = some s ∧ pr._type = "playlist" := by
  cases hn : (nodesPath "search" rd).bind JValue.asArr? with
  | none =>
    have he : tryGetList rd [nodesPath "search"] = none := by
      simp [tryGetList, tryGet, hn]
    simp [suche_real_extract, suche_nodes_eq, he, falsyList] at h
  | some ns =>
    have he : tryGetList rd [nodesPath "search"] = some ns := by
      simp [tryGetList, tryGet, hn]
    cases ns with
    | nil => simp [suche_real_extract, suche_nodes_eq, he, falsyList] at h
    | cons a l =>
      refine ⟨a :: l, rfl, by simp, ?_⟩
      cases hc : collect_entries (a :: l) with
      | error err =>
        simp [suche_real_extract, suche_nodes_eq, he, falsyList,
          collect_entries_suche_eq, hc] at h
      | ok p =>
        obtain ⟨rs, ws⟩ := p
        simp [suche_real_extract, suche_nodes_eq, he, falsyList,
          collect_entries_suche_eq, hc] at h
        obtain ⟨hpr, hws⟩ := h
        subst hws
        rw [← hpr]
        exact ⟨rfl, rfl, rfl, rfl⟩

theorem extract_episode_ok_eq (ep : JValue) (u : String)
    (hu : tryGetStr ep [getAudioUrl, getAudioDownloadUrl] = some u)
    (h2 : u ≠ "") :
    extract_episode ep = .ok
      { id := tryGetStr ep [fun x => x.get? "id"]
        title := tryGetStr ep [fun x => x.get? "title"]
        description := tryGetStr ep [fun x => x.get? "description"]
        url := u
        duration := tryGetInt ep [fun x => x.get? "duration"]
        upload_date := unified_strdate (tryGetStr ep [fun x => x.get? "publishDate"])
        is_live := false
        thumbnail := tryGetStr ep [getThumbnail]
        channel := tryGetStr ep [getChannel]
        series := tryGetStr ep [getSeries]
        categories := tryGetStr ep [getCategories] } := by
  have hf : falsyStr (some u) = false := by simp [falsyStr, h2]
  simp [extract_episode, hu, hf]

theorem extract_episode_thumbnail_inv (ep : JValue) (r : EpisodeRecord)
    (h : extract_episode ep = .ok r) :
    r.thumbnail = tryGetStr ep [getThumbnail] := by
  cases hf : falsyStr (tryGetStr ep [getAudioUrl, getAudioDownloadUrl]) with
  | true => simp [extract_episode, hf] at h
  | false =>
    simp [extract_episode, hf] at h
    subst h
    rfl

/-- An audio variant carrying both a streaming and a download URL. -/
def sampleAudio : JValue :=
  .obj [("url", .str "https://ex.de/stream.mp3"),
        ("downloadUrl", .str "https://ex.de/dl.mp3")]

/-- A node that normalizes successfully. -/
def goodNode : JValue :=
  .obj [("id", .str "10525879"), ("title", .str "X"),
        ("audios", .arr [sampleAudio]), ("duration", .num 600),
        ("publishDate", .str "2022-05-21T05:00:00")]

/-- The record `goodNode` normalizes to. -/
def goodRecord : EpisodeRecord :=
  { id := some "10525879", title := some "X", description := none,
    url := "https://ex.de/stream.mp3", duration := some 600,
    upload_date := some "20220521", is_live := false, thumbnail := none,
    channel := none, series := none, categories := none }

/-- A node with an id but no usable audio URL. -/
def droppableNode : JValue := .obj [("id", .str "77")]

/-- A node with neither a usable audio URL nor an id key. -/
def idlessNode : JValue := .obj [("title", .str "orphan")]

/-- A playlist-shaped response for the given query kind and nodes. -/
def mkPlaylistResponse (pt : String) (ns : List JValue) : JValue :=
  .obj [("data", .obj [(pt, .obj [("id", .str "12187357"),
    ("title", .str "Korridore"), ("items", .obj [("nodes", .arr ns)])])])]

example : extract_episode goodNode = .ok goodRecord := rfl

/-- C3: for every raw episode node on which neither a streaming url nor a
download url can be found on the first audio variant, the episode
normalizer fails with the missing-media-URL extractor error and emits no
episode record. -/
theorem c3_missing_media_url (ep : JValue)
    (h1 : (getAudioUrl ep).bind JValue.asStr? = none)
    (h2 : (getAudioDownloadUrl ep).bind JValue.asStr? = none) :
    extract_episode ep =
      .error (.extractorError "Could not find a URL to download") := by
  have hu : tryGetStr ep [getAudioUrl, getAudioDownloadUrl] = none := by
    simp [tryGetStr, tryGet, h1, h2]
  simp [extract_episode, hu, falsyStr]

theorem c3_witness :
    (getAudioUrl droppableNode).bind JValue.asStr? = none ∧
    (getAudioDownloadUrl droppableNode).bind JValue.asStr? = none ∧
    extract_episode droppableNode =
      .error (.extractorError "Could not find a URL to download") :=
  ⟨rfl, rfl, c3_missing_media_url droppableNode rfl rfl⟩

/-- C4: for every raw episode node whose first audio variant carries a
streaming URL, the produced episode record's url field is that streaming
URL; the download URL of the same variant is never consulted. -/
theorem c4_streaming_priority (ep : JValue) (u : String)
    (h1 : getAudioUrl ep = some (.str u)) (h2 : u ≠ "") :
    ∃ r, extract_episode ep = .ok r ∧ r.url = u := by
  have hu : tryGetStr ep [getAudioUrl, getAudioDownloadUrl] = some u := by
    simp [tryGetStr, tryGet, h1, JValue.asStr?]
  exact ⟨_, extract_episode_ok_eq ep u hu h2, rfl⟩

theorem c4_witness :
    getAudioUrl goodNode = some (.str "https://ex.de/stream.mp3") ∧
    ∃ r, extract_episode goodNode = .ok r ∧ r.url = "https://ex.de/stream.mp3" :=
  ⟨rfl, c4_streaming_priority goodNode "https://ex.de/stream.mp3" rfl (by decide)⟩

/-- C10: when the first audio variant's streaming url field is present but
holds the empty string, the accessor still selects it, the truthiness
check rejects it, and the normalizer fails with the missing-media-URL
error; the fallback to the (even non-empty) download url never fires. -/
theorem c10_empty_streaming_url (ep : JValue) (d : String)
    (h1 : getAudioUrl ep = some (.str ""))
    (h2 : getAudioDownloadUrl ep = some (.str d)) (h3 : d ≠ "") :
    extract_episode ep =
      .error (.extractorError "Could not find a URL to download") := by
  have hu : tryGetStr ep [getAudioUrl, getAudioDownloadUrl] = some "" := by
    simp [tryGetStr, tryGet, h1, JValue.asStr?]
  simp [extract_episode, hu, falsyStr]

/-- A node whose streaming url is the empty string next to a usable
download url. -/
def emptyUrlNode : JValue :=
  .obj [("id", .str "9"),
        ("audios", .arr [.obj [("url", .str ""),
                               ("downloadUrl", .str "https://ex.de/dl.mp3")]])]

theorem c10_witness :
    extract_episode emptyUrlNode =
      .error (.extractorError "Could not find a URL to download") :=
  c10_empty_streaming_url emptyUrlNode "https://ex.de/dl.mp3" rfl rfl (by decide)

/-- C8: every produced episode record's thumbnail is the square-aspect
image URL template with its width field substituted by exactly 320
whenever the node carries such a template, never the unresolved template;
and it is null whenever the node has no image object. -/
theorem c8_thumbnail (ep : JValue) (r : EpisodeRecord)
    (h : extract_episode ep = .ok r) :
    (∀ t, imagePath ep = some (.str t) → r.thumbnail = formatWidth t 320) ∧
    (ep.get? "image" = none → r.thumbnail = none) := by
  have hthumb := extract_episode_thumbnail_inv ep r h
  constructor
  · intro t ht
    rw [hthumb]
    cases hf : formatWidth t 320 with
    | none => simp [tryGetStr, tryGet, getThumbnail, ht, hf, JValue.asStr?]
    | some s => simp [tryGetStr, tryGet, getThumbnail, ht, hf, JValue.asStr?]
  · intro hi
    rw [hthumb]
    simp [tryGetStr, tryGet, getThumbnail, imagePath, hi]

/-- A node with a usable audio URL and a square image template. -/
def thumbNode : JValue :=
  .obj [("audios", .arr [sampleAudio]),
        ("image", .obj [("url1X1", .str "https://img.de/{width}/x.jpg")])]

/-- The record `thumbNode` normalizes to. -/
def thumbRecord : EpisodeRecord :=
  { id := none, title := none, description := none,
    url := "https://ex.de/stream.mp3", duration := none, upload_date := none,
    is_live := false, thumbnail := some "https://img.de/320/x.jpg",
    channel := none, series := none, categories := none }

theorem c8_witness :
    extract_episode thumbNode = .ok thumbRecord ∧
    imagePath thumbNode = some (.str "https://img.de/{width}/x.jpg") ∧
    thumbRecord.thumbnail = formatWidth "https://img.de/{width}/x.jpg" 320 ∧
    thumbRecord.thumbnail = some "https://img.de/320/x.jpg" :=
  ⟨rfl, rfl, (c8_thumbnail thumbNode thumbRecord rfl).1 _ rfl, rfl⟩

/-- C6: when the upstream response contains no item object for the
requested id, the single-episode route fails with the no-episode-data
error instead of returning an episode record. -/
theorem c6_no_episode_data (episode_id : String) (rd : JValue)
    (h : (itemPath rd).bind JValue.asObj? = none) :
    episode_real_extract episode_id rd =
      .error (.extractorError "Could not find any episode data") := by
  have hd : tryGetDict rd [itemPath] = none := by simp [tryGetDict, tryGet, h]
  simp [episode_real_extract, hd, falsyDict]

/-- A response whose data object carries no item. -/
def emptyItemResponse : JValue := .obj [("data", .obj [])]

theorem c6_witness :
    episode_real_extract "10525879" emptyItemResponse =
      .error (.extractorError "Could not find any episode data") :=
  c6_no_episode_data "10525879" emptyItemResponse rfl

/-- C5: for every playlist or search response whose node list is absent or
empty at the expected path, the resolution fails with the fatal
empty-playlist extractor error, so no playlist result (in particular none
with empty entries) is produced. -/
theorem c5_empty_playlist :
    (∀ pid pt rd, ((nodesPath pt rd).bind JValue.asArr? = none ∨
        (nodesPath pt rd).bind JValue.asArr? = some []) →
      _extract_sammlung_sendung pid pt rd =
        .error (.extractorError "Could not find any playlist data")) ∧
    (∀ s rd, ((nodesPath "search" rd).bind JValue.asArr? = none ∨
        (nodesPath "search" rd).bind JValue.asArr? = some []) →
      suche_real_extract s rd =
        .error (.extractorError "Could not find any search results")) := by
  constructor
  · intro pid pt rd h
    rcases h with h | h
    · have he : tryGetList rd [nodesPath pt] = none := by
        simp [tryGetList, tryGet, h]
      simp [_extract_sammlung_sendung, he, falsyList]
    · have he : tryGetList rd [nodesPath pt] = some [] := by
        simp [tryGetList, tryGet, h]
      simp [_extract_sammlung_sendung, he, falsyList]
  · intro s rd h
    rcases h with h | h
    · have he : tryGetList rd [nodesPath "search"] = none := by
        simp [tryGetList, tryGet, h]
      simp [suche_real_extract, suche_nodes_eq, he, falsyList]
    · have he : tryGetList rd [nodesPath "search"] = some [] := by
        simp [tryGetList, tryGet, h]
      simp [suche_real_extract, suche_nodes_eq, he, falsyList]

/-- A search response with an empty node list. -/
def emptySearchResponse : JValue :=
  .obj [("data", .obj [("search",
    .obj [("items", .obj [("nodes", .arr [])])])])]

theorem c5_witness :
    suche_real_extract "termite" emptySearchResponse =
      .error (.extractorError "Could not find any search results") :=
  c5_empty_playlist.2 "termite" emptySearchResponse (Or.inr rfl)

/-- A show response whose only node lacks an audio URL but has an id. -/
def c1Response : JValue := mkPlaylistResponse "programSet" [droppableNode]

/-- C1 counterexample: a show response with one fetched node that fails
normalization but carries an id resolves successfully to a playlist
result whose entries sequence is empty, contradicting the claimed
invariant that a successfully returned result never has empty entries. -/
theorem c1_counterexample :
    _extract_sammlung_sendung "12187357" "programSet" c1Response =
      .ok ({ id := some "12187357", title := some "Korridore",
             _type := "playlist", entries := [] },
           [⟨.str "77"⟩]) := rfl

/-- C1 amended: for every playlist-route resolution that returns a
playlist result successfully, the upstream node list before per-entry
filtering was non-empty (its emptiness is fatal) and per-entry failures
only shrink entries, one warning standing for each dropped node; but the
surviving entries sequence itself may be empty. -/
theorem c1_nodes_nonempty_on_success :
    (∀ pid pt rd pr warns,
      _extract_sammlung_sendung pid pt rd = .ok (pr, warns) →
      ∃ ns, (nodesPath pt rd).bind JValue.asArr? = some ns ∧ ns ≠ [] ∧
        pr.entries.length + warns.length = ns.length) ∧
    (∀ s rd pr warns,
      suche_real_extract s rd = .ok (pr, warns) →
      ∃ ns, (nodesPath "search" rd).bind JValue.asArr? = some ns ∧ ns ≠ [] ∧
        pr.entries.length + warns.length = ns.length) := by
  constructor
  · intro pid pt rd pr warns h
    obtain ⟨ns, h1, h2, h3⟩ := sammlung_ok_inv pid pt rd pr warns h
    obtain ⟨e1, e2, e3⟩ := collect_entries_ok_inv ns _ _ h3
    exact ⟨ns, h1, h2, e3⟩
  · intro s rd pr warns h
    obtain ⟨ns, h1, h2, h3, _, _, _⟩ := suche_ok_inv s rd pr warns h
    obtain ⟨e1, e2, e3⟩ := collect_entries_ok_inv ns _ _ h3
    exact ⟨ns, h1, h2, e3⟩

/-- A show response holding one good node. -/
def goodResponse : JValue := mkPlaylistResponse "programSet" [goodNode]

/-- The playlist `goodResponse` resolves to. -/
def goodPlaylist : PlaylistResult :=
  { id := some "12187357", title := some "Korridore", _type := "playlist",
    entries := [goodRecord] }

theorem c1_witness :
    ∃ ns, (nodesPath "programSet" goodResponse).bind JValue.asArr? = some ns ∧
      ns ≠ [] ∧
      goodPlaylist.entries.length + ([] : List Warning).length = ns.length :=
  c1_nodes_nonempty_on_success.1 "12187357" "programSet" goodResponse
    goodPlaylist [] rfl

/-- C2: for every playlist or search response with a non-empty node list in
which every node either normalizes or fails with the missing-media-URL
error while still carrying an id, the resolution succeeds with the
surviving records in upstream order (the order-preserving filter of the
node list), one warning per dropped node keyed by that node's id, K
warnings for K failing nodes and N minus K entries for N nodes. -/
theorem c2_partial_failure :
    (∀ pid pt rd ns, (nodesPath pt rd).bind JValue.asArr? = some ns → ns ≠ [] →
      (∀ e ∈ ns, (∃ r, extract_episode e = .ok r) ∨
        (extract_episode e =
            .error (.extractorError "Could not find a URL to download") ∧
         ∃ v, e.get? "id" = some v)) →
      ∃ pr warns, _extract_sammlung_sendung pid pt rd = .ok (pr, warns) ∧
        pr.entries = ns.filterMap survivor? ∧
        warns = ns.filterMap droppedWarning? ∧
        warns.length = ns.countP (fun e => !(extract_episode e).isOk) ∧
        pr.entries.length + warns.length = ns.length) ∧
    (∀ s rd ns, (nodesPath "search" rd).bind JValue.asArr? = some ns → ns ≠ [] →
      (∀ e ∈ ns, (∃ r, extract_episode e = .ok r) ∨
        (extract_episode e =
            .error (.extractorError "Could not find a URL to download") ∧
         ∃ v, e.get? "id" = some v)) →
      ∃ pr warns, suche_real_extract s rd = .ok (pr, warns) ∧
        pr.entries = ns.filterMap survivor? ∧
        warns = ns.filterMap droppedWarning? ∧
        warns.length = ns.countP (fun e => !(extract_episode e).isOk) ∧
        pr.entries.length + warns.length = ns.length) := by
  constructor
  · intro pid pt rd ns h1 h2 h3
    have h3' : ∀ e ∈ ns, (∃ r, extract_episode e = .ok r) ∨
        ((∃ m, extract_episode e = .error (.extractorError m)) ∧
         ∃ v, e.get? "id" = some v) := by
      intro e he
      rcases h3 e he with hok | ⟨hm, hv⟩
      · exact Or.inl hok
      · exact Or.inr ⟨⟨_, hm⟩, hv⟩
    have hc := collect_entries_ok_of ns h3'
    refine ⟨_, _, sammlung_ok pid pt rd ns _ _ h1 h2 hc, rfl, rfl,
      dropped_length_eq_countP ns h3', ?_⟩
    obtain ⟨e1, e2, e3⟩ := collect_entries_ok_inv ns _ _ hc
    exact e3
  · intro s rd ns h1 h2 h3
    have h3' : ∀ e ∈ ns, (∃ r, extract_episode e = .ok r) ∨
        ((∃ m, extract_episode e = .error (.extractorError m)) ∧
         ∃ v, e.get? "id" = some v) := by
      intro e he
      rcases h3 e he with hok | ⟨hm, hv⟩
      · exact Or.inl hok
      · exact Or.inr ⟨⟨_, hm⟩, hv⟩
    have hc := collect_entries_ok_of ns h3'
    refine ⟨_, _, suche_ok s rd ns _ _ h1 h2 hc, rfl, rfl,
      dropped_length_eq_countP ns h3', ?_⟩
    obtain ⟨e1, e2, e3⟩ := collect_entries_ok_inv ns _ _ hc
    exact e3

/-- A show response mixing one good and one droppable node. -/
def mixedResponse : JValue :=
  mkPlaylistResponse "programSet" [goodNode, droppableNode]

theorem c2_witness :
    ∃ pr warns,
      _extract_sammlung_sendung "12187357" "programSet" mixedResponse =
        .ok (pr, warns) ∧
      pr.entries = [goodNode, droppableNode].filterMap survivor? ∧
      warns = [goodNode, droppableNode].filterMap droppedWarning? ∧
      warns.length =
        [goodNode, droppableNode].countP (fun e => !(extract_episode e).isOk) ∧
      pr.entries.length + warns.length =
        ([goodNode, droppableNode] : List JValue).length :=
  c2_partial_failure.1 "12187357" "programSet" mixedResponse
    [goodNode, droppableNode] rfl (List.cons_ne_nil _ _)
    (by
      intro e he
      rcases List.mem_cons.mp he with rfl | he
      · exact Or.inl ⟨goodRecord, rfl⟩
      rcases List.mem_cons.mp he with rfl | he
      · exact Or.inr ⟨rfl, ⟨.str "77", rfl⟩⟩
      cases he)

/-- C9: whenever the fetched node list contains a node that both fails
episode normalization and lacks an id key, the unguarded id subscript in
the warning path raises, so the whole playlist resolution fails with the
key error instead of skipping that node with a warning. -/
theorem c9_missing_id_fatal :
    (∀ pid pt rd ns e, (nodesPath pt rd).bind JValue.asArr? = some ns →
      e ∈ ns → (∃ m, extract_episode e = .error (.extractorError m)) →
      e.get? "id" = none →
      _extract_sammlung_sendung pid pt rd = .error .keyError) ∧
    (∀ s rd ns e, (nodesPath "search" rd).bind JValue.asArr? = some ns →
      e ∈ ns → (∃ m, extract_episode e = .error (.extractorError m)) →
      e.get? "id" = none →
      suche_real_extract s rd = .error .keyError) := by
  constructor
  · intro pid pt rd ns e h1 he hm hid
    exact sammlung_error pid pt rd ns _ h1 (List.ne_nil_of_mem he)
      (collect_entries_error_of_missing_id ns e he hm hid)
  · intro s rd ns e h1 he hm hid
    exact suche_error s rd ns _ h1 (List.ne_nil_of_mem he)
      (collect_entries_error_of_missing_id ns e he hm hid)

/-- A show response holding one good node and one idless failing node. -/
def idlessResponse : JValue :=
  mkPlaylistResponse "programSet" [goodNode, idlessNode]

theorem c9_witness :
    _extract_sammlung_sendung "12187357" "programSet" idlessResponse =
      .error .keyError :=
  c9_missing_id_fatal.1 "12187357" "programSet" idlessResponse
    [goodNode, idlessNode] idlessNode rfl
    (List.mem_cons_of_mem _ (List.mem_cons_self _ _))
    ⟨"Could not find a URL to download", rfl⟩ rfl

/-- A search-shaped response holding one good node and no collection-level
id or title, as the search query requests neither. -/
def searchResponse : JValue :=
  .obj [("data", .obj [("search",
    .obj [("items", .obj [("nodes", .arr [goodNode])])])])]

/-- C7 counterexample: on the same upstream response the search route's
inline assembly and the shared assembler parametrized with the search
query kind produce different playlist results: the search route hardcodes
the search string as title (and a null id) while the shared assembler
reads both from the response. -/
theorem c7_counterexample :
    suche_real_extract "termite" searchResponse ≠
      _extract_sammlung_sendung "termite" "search" searchResponse := by
  intro h
  have h1 : suche_real_extract "termite" searchResponse =
      .ok ({ id := none, title := some "termite", _type := "playlist",
             entries := [goodRecord] }, []) := rfl
  have h2 : _extract_sammlung_sendung "termite" "search" searchResponse =
      .ok ({ id := none, title := none, _type := "playlist",
             entries := [goodRecord] }, []) := rfl
  rw [h1, h2] at h
  simp at h

/-- C7 amended: the playlist-producing routes share the node-path shape and
the entry-assembly logic, so on every upstream response the search route
and the shared assembler parametrized with the search query kind succeed
or fail together and agree on the entries, the warnings and the playlist
tag; but the search route hardcodes a null id and the search string as
title where the shared assembler reads both from the response (and the
two use different fatal messages on an empty node list). -/
theorem c7_shared_assembly (s pid : String) (rd : JValue) :
    (∀ pr warns, suche_real_extract s rd = .ok (pr, warns) →
      ∃ pr2, _extract_sammlung_sendung pid "search" rd = .ok (pr2, warns) ∧
        pr2.entries = pr.entries ∧ pr2._type = pr._type ∧
        pr.id = none ∧ pr.title = some s ∧
        pr2.id = tryGetStr rd [idPath "search"] ∧
        pr2.title = tryGetStr rd [titlePath "search"]) ∧
    (suche_real_extract s rd).isOk =
      (_extract_sammlung_sendung pid "search" rd).isOk := by
  constructor
  · intro pr warns h
    obtain ⟨ns, h1, h2, h3, hid, htitle, htype⟩ := suche_ok_inv s rd pr warns h
    refine ⟨_, sammlung_ok pid "search" rd ns _ _ h1 h2 h3, rfl, ?_,
      hid, htitle, rfl, rfl⟩
    rw [htype]
  · cases hn : (nodesPath "search" rd).bind JValue.asArr? with
    | none =>
      have ha : tryGetList rd [nodesPath "search"] = none := by
        simp [tryGetList, tryGet, hn]
      simp [suche_real_extract, suche_nodes_eq, ha, falsyList,
        _extract_sammlung_sendung, Except.isOk, Except.toBool]
    | some ns =>
      cases ns with
      | nil =>
        have ha : tryGetList rd [nodesPath "search"] = some [] := by
          simp [tryGetList, tryGet, hn]
        simp [suche_real_extract, suche_nodes_eq, ha, falsyList,
          _extract_sammlung_sendung, Except.isOk, Except.toBool]
      | cons a l =>
        cases hc : collect_entries (a :: l) with
        | error err =>
          rw [suche_error s rd (a :: l) err hn (List.cons_ne_nil _ _) hc,
            sammlung_error pid "search" rd (a :: l) err hn
              (List.cons_ne_nil _ _) hc]
        | ok p =>
          obtain ⟨rs, ws⟩ := p
          rw [suche_ok s rd (a :: l) rs ws hn (List.cons_ne_nil _ _) hc,
            sammlung_ok pid "search" rd (a :: l) rs ws hn
              (List.cons_ne_nil _ _) hc]
          rfl

/-- The playlist the search route produces from `searchResponse`. -/
def suchePlaylist : PlaylistResult :=
  { id := none, title := some "termite", _type := "playlist",
    entries := [goodRecord] }

theorem c7_witness :
    ∃ pr2, _extract_sammlung_sendung "x" "search" searchResponse =
        .ok (pr2, []) ∧
      pr2.entries = suchePlaylist.entries ∧ pr2._type = suchePlaylist._type ∧
      suchePlaylist.id = none ∧ suchePlaylist.title = some "termite" ∧
      pr2.id = tryGetStr searchResponse [idPath "search"] ∧
      pr2.title = tryGetStr searchResponse [titlePath "search"] :=
  (c7_shared_assembly "termite" "x" searchResponse).1 suchePlaylist [] rfl
